import Mathlib

/-!
Verification development for the kzpy motion-controller client.

The Python modules `validate.py`, `_command.py`, `device.py` and `motion.py`
are shallowly embedded below: Python floats become rationals (`Rat`),
Python ints become `Int`, raised exceptions become the `Err` sum carried by
`Except`, and device interaction becomes an oracle plus an explicit trace of
issued commands.  Each definition mirrors one Python function of the source.
-/

deriving instance DecidableEq for Except

attribute [local semireducible] Rat.mul Rat.inv Rat.add Rat.sub

/-- Exceptions raised by the embedded code.  Each constructor corresponds to
one `raise` site (or family of sites) in the Python source. -/
inductive Err where
  | unknownCommand (name : String)
  | emptyResponse
  | lengthMismatch (expected got : Nat)
  | deviceCommandError (command : String) (axInfo errInfo : Option String)
  | axisNotFound (ax : Int)
  | positionOutOfRange (pulse : Int)
  | velocityOutOfRange (pulse : Int)
  | accTimeOutOfRange (t : Int)
  | decTimeOutOfRange (t : Int)
  | accTypeInvalid (t : Int)
  | deviceNotFound (device : String)
  | intParse (s : String)
  | keyError (k : String)
  | zeroDivision
  | idlePollExhausted
  | transportFailure
  deriving Repr, DecidableEq

/-- `src/kzpy/_type.py` `AxisConfig` (pydantic model).  The pydantic field
validators require `start_velocity_pulse > 0` and `pulse_per_unit > 0`; those
invariants are carried as hypotheses where theorems need them. -/
structure AxisConfig where
  name : String
  ax_num : Int
  units : String
  max_pulse : Int
  min_pulse : Int
  max_speed_pulse : Int
  start_velocity_pulse : Rat
  pulse_per_unit : Rat
  deriving Repr, DecidableEq

/-- `src/kzpy/_type.py` `SerialConfig`. -/
structure SerialConfig where
  baudrate : Int
  parity : String
  deriving Repr, DecidableEq

/-- `src/kzpy/_type.py` `DeviceConfig`. -/
structure DeviceConfig where
  device : String
  axes_sum : Int
  axes : List AxisConfig
  serial : SerialConfig
  deriving Repr, DecidableEq

/-- Python `int(x)` applied to a float/rational: truncation toward zero. -/
def pyTrunc (q : Rat) : Int :=
  if 0 ≤ q then ⌊q⌋ else ⌈q⌉

/-- `validate.py` `ACC_TIME_RANGE`. -/
def ACC_TIME_RANGE : Int × Int := (1, 10000)

/-- `validate.py` `DEC_TIME_RANGE`. -/
def DEC_TIME_RANGE : Int × Int := (1, 10000)

/-- `validate.py` `ACC_TYPE_OPTIONS`, as a function of the variant; the
`.get(variant, ACC_TYPE_OPTIONS['default'])` fallback is folded in. -/
def ACC_TYPE_OPTIONS (variant : String) : List Int :=
  if variant = "aries" then [1, 2, 3] else [1, 2]

/-- `validate.py` `get_axis_conf`: first axis with the requested number, else
`ValueError`. -/
def get_axis_conf (config : DeviceConfig) (ax_num : Int) : Except Err AxisConfig :=
  match config.axes.find? (fun ax => ax.ax_num = ax_num) with
  | some ax => .ok ax
  | none => .error (.axisNotFound ax_num)

/-- `validate.py` `validate_position_pulse`. -/
def validate_position_pulse (pulse : Int) (axis : AxisConfig) : Except Err Int :=
  if pulse < axis.min_pulse ∨ pulse > axis.max_pulse then
    .error (.positionOutOfRange pulse)
  else .ok pulse

/-- `validate.py` `validate_velocity_pulse`. -/
def validate_velocity_pulse (pulse : Int) (axis : AxisConfig) : Except Err Int :=
  if pulse < 0 ∨ pulse > axis.max_speed_pulse then
    .error (.velocityOutOfRange pulse)
  else .ok pulse

/-- `validate.py` `length_unit_to_pulse`: `int(length / axis.pulse_per_unit)`
then range check.  (Note: the source divides by `pulse_per_unit`.) -/
def length_unit_to_pulse (length : Rat) (axis : AxisConfig) : Except Err Int :=
  validate_position_pulse (pyTrunc (length / axis.pulse_per_unit)) axis

/-- `validate.py` `pulse_to_length_unit`: range check, then
`pulse * axis.pulse_per_unit`. -/
def pulse_to_length_unit (pulse : Int) (axis : AxisConfig) : Except Err Rat :=
  match validate_position_pulse pulse axis with
  | .ok _ => .ok ((pulse : Rat) * axis.pulse_per_unit)
  | .error e => .error e

/-- `validate.py` `velocity_unit_to_pulse`: `int(velocity / axis.pulse_per_unit)`
then range check. -/
def velocity_unit_to_pulse (velocity : Rat) (axis : AxisConfig) : Except Err Int :=
  validate_velocity_pulse (pyTrunc (velocity / axis.pulse_per_unit)) axis

/-- `validate.py` `pulse_to_velocity_unit`: range check, then
`pulse * axis.pulse_per_unit`. -/
def pulse_to_velocity_unit (pulse : Int) (axis : AxisConfig) : Except Err Rat :=
  match validate_velocity_pulse pulse axis with
  | .ok _ => .ok ((pulse : Rat) * axis.pulse_per_unit)
  | .error e => .error e

/-- `validate.py` `validate_acc_time`. -/
def validate_acc_time (acc_time : Int) : Except Err Int :=
  if acc_time < ACC_TIME_RANGE.1 ∨ acc_time > ACC_TIME_RANGE.2 then
    .error (.accTimeOutOfRange acc_time)
  else .ok acc_time

/-- `validate.py` `validate_dec_time`. -/
def validate_dec_time (dec_time : Int) : Except Err Int :=
  if dec_time < DEC_TIME_RANGE.1 ∨ dec_time > DEC_TIME_RANGE.2 then
    .error (.decTimeOutOfRange dec_time)
  else .ok dec_time

/-- `validate.py` `validate_acc_type`. -/
def validate_acc_type (acc_type : Int) (variant : String) : Except Err Int :=
  if acc_type ∈ ACC_TYPE_OPTIONS variant then .ok acc_type
  else .error (.accTypeInvalid acc_type)

/-- The spec's claimed conversion (`round_toward_zero(value * pulse_per_unit)`,
then range check), stated for comparison with `length_unit_to_pulse` above.
Modelled from the spec: this is what §4.4 and the repo's own tests
(`test_validate.py`, `test_motion.py` monkeypatches) describe. -/
def spec_length_to_pulse (length : Rat) (axis : AxisConfig) : Except Err Int :=
  validate_position_pulse (pyTrunc (length * axis.pulse_per_unit)) axis

/-- The C1 example calibration: `pulse_per_unit=10`, `min_pulse=0`,
`max_pulse=1000` (as in spec §8 and `test_motion.py`). -/
def axExample : AxisConfig :=
  { name := "axis1", ax_num := 1, units := "unit", max_pulse := 1000,
    min_pulse := 0, max_speed_pulse := 500, start_velocity_pulse := 1,
    pulse_per_unit := 10 }

example : spec_length_to_pulse 2 axExample = .ok 20 := by
  norm_num [spec_length_to_pulse, validate_position_pulse, pyTrunc, axExample]

example : length_unit_to_pulse 2 axExample = .ok 0 := by
  norm_num [length_unit_to_pulse, validate_position_pulse, pyTrunc, axExample]

example : pulse_to_length_unit 20 axExample = .ok 200 := by
  norm_num [pulse_to_length_unit, validate_position_pulse, axExample]

/-- `_command.py`: one entry of a command map (`code`, `args`, `res_c`, `res_e`). -/
structure CommandInfo where
  code : String
  args : List String
  res_c : List String
  res_e : List String
  deriving Repr, DecidableEq

/-- `_command.py` `default_map`. -/
def default_map : String → Option CommandInfo
  | "move_free" =>
      some { code := "FRP"
             args := ["ax_num", "vel_no", "dir"]
             res_c := ["ax_num"]
             res_e := ["ax_num", "error_num"] }
  | "move_relative" =>
      some { code := "RPS"
             args := ["ax_num", "vel_no", "length", "pat"]
             res_c := ["ax_num"]
             res_e := ["ax_num", "error_num"] }
  | "move_absolute" =>
      some { code := "APS"
             args := ["ax_num", "vel_no", "length", "pat"]
             res_c := ["ax_num"]
             res_e := ["ax_num", "error_num"] }
  | "move_stop" =>
      some { code := "STP"
             args := ["ax_num", "pat"]
             res_c := ["ax_num"]
             res_e := ["ax_num", "error_num"] }
  | "home" =>
      some { code := "ORG"
             args := ["ax_num", "vel_no", "pat"]
             res_c := ["ax_num"]
             res_e := ["ax_num", "error_num"] }
  | "identify" =>
      some { code := "IDN"
             args := []
             res_c := ["dev_name", "dev_var", "minor_ver", "release_ver"]
             res_e := [] }
  | "read_position" =>
      some { code := "RDP"
             args := ["ax_num"]
             res_c := ["ax_num", "pos"]
             res_e := [] }
  | "read_vel_tbl" =>
      some { code := "RTB"
             args := ["ax_num", "vel_no"]
             res_c := ["ax_num", "vel_no", "start_vel", "max_vel", "acc_time", "acc_type"]
             res_e := ["ax_num", "error_num"] }
  | "read_status" =>
      some { code := "STR"
             args := ["ax_num"]
             res_c := ["ax_num", "status", "org_sta", "norg_sta", "ccw_sta", "cw_sta"]
             res_e := ["ax_num", "error_num"] }
  | "write_vel_tbl" =>
      some { code := "WTB"
             args := ["ax_num", "vel_no", "start_vel", "max_vel", "acc_time", "acc_type"]
             res_c := ["ax_num"]
             res_e := ["ax_num", "error_num"] }
  | _ => none

/-- `_command.py` `aries_command_map`: `default_map` with four entries
overridden/added (`read_axis`, `read_vel_tbl`, `write_vel_tbl`, `read_status`). -/
def aries_command_map : String → Option CommandInfo
  | "read_axis" =>
      some { code := "RAX"
             args := []
             res_c := ["ax_num", "control_num", "island_0", "island_1", "island_2",
                       "island_3", "island_4", "island_5", "island_6", "island_7"]
             res_e := ["error_num"] }
  | "read_vel_tbl" =>
      some { code := "RTB"
             args := ["ax_num", "vel_no"]
             res_c := ["ax_num", "vel_no", "start_vel", "max_vel", "acc_time", "dec_time",
                       "acc_type", "acc_pulse", "dec_pulse"]
             res_e := ["ax_num", "error_num"] }
  | "write_vel_tbl" =>
      some { code := "WTB"
             args := ["ax_num", "vel_no", "start_vel", "max_vel", "acc_time", "dec_time",
                      "acc_type"]
             res_c := ["ax_num", "vel_no", "start_vel", "max_vel", "acc_time", "dec_time",
                       "acc_type", "acc_pulse", "dec_pulse"]
             res_e := ["ax_num", "error_num"] }
  | "read_status" =>
      some { code := "STR"
             args := ["ax_num"]
             res_c := ["ax_num", "status", "emg_sta", "org_noorg_sta", "cw_ccw_sta",
                       "soft_sta", "limit_sta"]
             res_e := ["ax_num", "error_num"] }
  | name => default_map name

/-- `CommandProcessor.__init__`: `aries_command_map if variant == "aries" else
default_map`. -/
def cmd_map (variant : String) : String → Option CommandInfo :=
  if variant = "aries" then aries_command_map else default_map

/-- ASCII bytes of a string (`str.encode('ascii')` on the ASCII strings the
codec builds). -/
def strBytes (s : String) : List Nat :=
  s.data.map Char.toNat

/-- `generate_command`'s argument serialization: keep the declared arguments
that were supplied, in declared order, rendered with `str(...)`. -/
def renderArgs (info : CommandInfo) (kwargs : List (String × Int)) : List String :=
  (info.args.filter (fun a => (kwargs.lookup a).isSome)).map
    (fun a => toString ((kwargs.lookup a).getD 0))

/-- `generate_command`'s body loop: `body = code`, then `body += args_strs[0]`
and `body += "/" + extra` for the remaining values. -/
def buildBody (code : String) (vals : List String) : String :=
  match vals with
  | [] => code
  | v :: rest => rest.foldl (fun b e => b ++ "/" ++ e) (code ++ v)

/-- `_command.py` `CommandProcessor.generate_command`: STX (`0x02`) + body +
CRLF (`0x0D 0x0A`), or `ValueError` for a name absent from the active map. -/
def generate_command (variant name : String) (kwargs : List (String × Int)) :
    Except Err (List Nat) :=
  match cmd_map variant name with
  | none => .error (.unknownCommand name)
  | some info =>
      .ok (0x02 :: strBytes (buildBody info.code (renderArgs info kwargs)) ++ [0x0D, 0x0A])

/-- Worker for `pySplitWs`: scans the character list, accumulating the
current token in reverse. -/
def splitWsAux : List Char → List Char → List String
  | [], cur => if cur.isEmpty then [] else [⟨cur.reverse⟩]
  | c :: rest, cur =>
      if c.isWhitespace then
        if cur.isEmpty then splitWsAux rest []
        else ⟨cur.reverse⟩ :: splitWsAux rest []
      else splitWsAux rest (c :: cur)

/-- Python `str.split()` with no separator: split on whitespace runs,
dropping empty tokens.  (`parse_response` first does `.strip()` and
`.replace('\t', ' ')`, both of which are absorbed by this splitting.) -/
def pySplitWs (s : String) : List String :=
  splitWsAux s.data []

/-- Python `a.startswith(b)`, character-wise (second argument is the pattern). -/
def charsStartWith : List Char → List Char → Bool
  | _, [] => true
  | [], _ :: _ => false
  | c :: cs, d :: ds => c = d && charsStartWith cs ds

/-- Python `s[n:]`: drop the first `n` characters. -/
def strDropN (s : String) (n : Nat) : String :=
  ⟨s.data.drop n⟩

/-- `parse_response`'s echo consumption: a token equal to the command code is
dropped; a token that is the code with a trailing all-digit suffix
(`first.startswith(code) and first[len(code):].isdigit()`; `isdigit` is false
on the empty string) is replaced by that suffix. -/
def consumeEcho (code : String) (tokens : List String) : List String :=
  match tokens with
  | [] => []
  | first :: rest =>
      if first = code then rest
      else if charsStartWith first.data code.data
              && (strDropN first code.data.length) ≠ ""
              && (strDropN first code.data.length).data.all Char.isDigit then
        (strDropN first code.data.length) :: rest
      else first :: rest

/-- `parse_response`'s field-list selection: `res_c` for prefix `"C"`, `res_e`
otherwise. -/
def selectFields (info : CommandInfo) (pfx : String) : List String :=
  if pfx = "C" then info.res_c else info.res_e

/-- `parse_response` after tokenization (the token list is the result of
`pySplitWs`).  Mirrors `_command.py` lines 144-190: map lookup, prefix pop,
echo consumption, the `read_vel_tbl`-only fallback to `default_map`'s field
layout, the length check, and the `E`-prefix `RuntimeError`. -/
def parse_tokens (variant : String) (tokens0 : List String) (command : String) :
    Except Err (List (String × String)) :=
  match cmd_map variant command with
  | none => .error (.unknownCommand command)
  | some info =>
    match tokens0 with
    | [] => .error .emptyResponse
    | pfx :: rest =>
      let tokens := consumeEcho info.code rest
      let fields0 := selectFields info pfx
      let fields :=
        if tokens.length ≠ fields0.length ∧ command = "read_vel_tbl" then
          match default_map command with
          | some fb =>
              let alt := selectFields fb pfx
              if tokens.length = alt.length then alt else fields0
          | none => if tokens.length = 0 then [] else fields0
        else fields0
      if tokens.length ≠ fields.length then
        .error (.lengthMismatch fields.length tokens.length)
      else
        let result := fields.zip tokens
        if pfx = "E" then
          .error (.deviceCommandError command (result.lookup "ax_num") (result.lookup "error_num"))
        else .ok result

/-- `_command.py` `CommandProcessor.parse_response`. -/
def parse_response (variant response command : String) :
    Except Err (List (String × String)) :=
  parse_tokens variant (pySplitWs response) command

example : generate_command "default" "move_free" [("ax_num", 1), ("vel_no", 2), ("dir", 1)]
    = .ok (0x02 :: strBytes "FRP1/2/1" ++ [0x0D, 0x0A]) := by decide

example : parse_response "default" "C FRP1" "move_free" = .ok [("ax_num", "1")] := by decide

example : parse_response "default" "C RDP 1 123" "read_position"
    = .ok [("ax_num", "1"), ("pos", "123")] := by decide

example : parse_response "default" "E RPS 1 3" "move_relative"
    = .error (.deviceCommandError "move_relative" (some "1") (some "3")) := by decide

example : parse_response "default" "X 1 2" "move_free"
    = .ok [("ax_num", "1"), ("error_num", "2")] := by decide

example : parse_response "default" "C ax_num 1" "move_free"
    = .error (.lengthMismatch 1 2) := by decide

example : parse_response "aries" "C RTB 1 1 5 5 3 2" "read_vel_tbl"
    = .ok [("ax_num", "1"), ("vel_no", "1"), ("start_vel", "5"), ("max_vel", "5"),
           ("acc_time", "3"), ("acc_type", "2")] := by decide

/-- One scan candidate of `Device.connect` (`device.py` lines 104-148): its
port name, and the outcome of the transport side of the `identify` exchange
on it — `.error` models an exception raised while opening the port or during
`send_and_receive`; `.ok raw` is the (ASCII-decoded, stripped) reply text. -/
structure Candidate where
  port : String
  ident_reply : Except Err String
  deriving Repr, DecidableEq

/-- The body of one iteration of `Device.connect`'s scan loop: open and probe
the candidate with `identify`.  Returns `some port` when the decoded
`dev_name` equals the configured device name; `none` models every other
outcome — a transport exception (caught, candidate closed, `continue`), a
`parse_response` exception (same `except` branch), or a decoded name that
does not match (candidate closed, loop continues). -/
def probe (variant devName : String) (c : Candidate) : Option String :=
  match c.ident_reply with
  | .error _ => none
  | .ok raw =>
      match parse_response variant raw "identify" with
      | .error _ => none
      | .ok parsed =>
          if parsed.lookup "dev_name" = some devName then some c.port else none

/-- `Device.connect`'s port scan (no forced port/baudrate override):
candidates in enumeration order, first match wins, exhaustion raises
`RuntimeError` naming the configured device. -/
def connect_scan (variant devName : String) : List Candidate → Except Err String
  | [] => .error (.deviceNotFound devName)
  | c :: rest =>
      match probe variant devName c with
      | some p => .ok p
      | none => connect_scan variant devName rest

example : connect_scan "default" "TestDevice"
    [⟨"/dev/ttyUSB0", .ok "C IDN OtherDevice 1 0 0"⟩,
     ⟨"/dev/ttyUSB1", .ok "C IDN TestDevice 1 0 0"⟩] = .ok "/dev/ttyUSB1" := by decide

example : connect_scan "default" "TestDevice"
    [⟨"/dev/ttyUSB0", .error .transportFailure⟩] =
      .error (.deviceNotFound "TestDevice") := by decide

/-- Reply field mappings, as returned by `parse_response`. -/
abbrev Fields := List (String × String)

/-- `CommandProcessor` mutable state as the motion layer sees it:
`variant` is the attribute `self.variant` (reassigned by
`_restore_vel_tbl`); `mapVariant` is the variant `self.cmd_map` was built
from in `__init__` (`cmd_map` is never reassigned afterwards). -/
structure ProcState where
  variant : String
  mapVariant : String
  deriving Repr, DecidableEq

/-- A command issued on the transport: name, integer arguments, and the
processor's `variant` attribute at the moment it was issued. -/
structure Cmd where
  name : String
  args : List (String × Int)
  variantAtIssue : String
  deriving Repr, DecidableEq

/-- The device side of `Device._execute_command`: for a request (by command
name and integer arguments) either a raised transport error or the raw reply
text.  Deterministic per request, which models a device whose state does not
change during the exchange sequence under consideration. -/
structure Transport where
  raw : String → List (String × Int) → Except Err String

/-- The `Device` attributes `MotionController` reads. -/
structure DeviceState where
  config : DeviceConfig
  target_vel_no : Int
  restore_vel_table : Bool

/-- Python `int(s)` on a reply-field string: optional sign followed by
digits (the canonical form the device produces); anything else raises. -/
def pyIntStr (s : String) : Except Err Int :=
  match s.data with
  | '-' :: rest =>
      if rest ≠ [] ∧ rest.all Char.isDigit then
        .ok (-(Int.ofNat (rest.foldl (fun acc c => acc * 10 + (c.toNat - 48)) 0)))
      else .error (.intParse s)
  | cs =>
      if cs ≠ [] ∧ cs.all Char.isDigit then
        .ok (Int.ofNat (cs.foldl (fun acc c => acc * 10 + (c.toNat - 48)) 0))
      else .error (.intParse s)

/-- Python `float(s)` on a reply-field string; the velocity-table fields the
motion layer converts are integer-valued, so this is `int(s)` into `Rat`. -/
def pyFloatStr (s : String) : Except Err Rat :=
  match pyIntStr s with
  | .ok n => .ok (n : Rat)
  | .error e => .error e

/-- `MotionController._exec_int` / `Device._execute_command`: generate the
frame, send it (recording the command in the trace), receive, parse.  If
frame generation raises, nothing is sent. -/
def _exec_int (tr : Transport) (proc : ProcState) (name : String)
    (args : List (String × Int)) : Except Err Fields × List Cmd :=
  match generate_command proc.mapVariant name args with
  | .error e => (.error e, [])
  | .ok _ =>
      (match tr.raw name args with
       | .error e => .error e
       | .ok s => parse_response proc.mapVariant s name,
       [⟨name, args, proc.variant⟩])

/-- `MotionController.ensure_idle`: poll `read_status` until the reported
`status` field equals `"0"`.  The source loop is unbounded; it is bounded
here by `fuel` (a model artifact (the transport oracle is deterministic, so
an un-idle device would loop forever); all theorems hold for every fuel). -/
def ensure_idle (tr : Transport) (proc : ProcState) (ax : Int) :
    Nat → Except Err Unit × List Cmd
  | 0 => (.error .idlePollExhausted, [])
  | fuel + 1 =>
      match _exec_int tr proc "read_status" [("ax_num", ax)] with
      | (.error e, t) => (.error e, t)
      | (.ok sta, t) =>
          if sta.lookup "status" = some "0" then (.ok (), t)
          else
            match ensure_idle tr proc ax fuel with
            | (r, t2) => (r, t ++ t2)

/-- `MotionController._get_vel_table_scaling`:
`orig_max = int(orig.get('max_vel', max_pulse))`, then
`max_pulse / orig_max if orig_max else 1.0`. -/
def _get_vel_table_scaling (orig : Fields) (max_pulse : Int) : Except Err Rat :=
  match orig.lookup "max_vel" with
  | some s =>
      match pyIntStr s with
      | .ok m => .ok (if m ≠ 0 then (max_pulse : Rat) / (m : Rat) else 1)
      | .error e => .error e
  | none => .ok (if max_pulse ≠ 0 then (max_pulse : Rat) / (max_pulse : Rat) else 1)

/-- The `PendingRestore` record `_temp_set_velocity` returns: the decoded
`read_vel_tbl` reply, plus the `_variant` key it adds
(`orig['_variant'] = getattr(proc, 'variant', None)`). -/
structure Captured where
  fields : Fields
  variantAtCapture : Option String
  deriving Repr, DecidableEq

/-- `MotionController._temp_set_velocity`: convert the requested velocity to
pulses, read the slot (capturing it), scale `acc_time` (and `dec_time` when
the reply carries one) by `max_pulse / original max_vel`, and write the
temporary entry.  `start_vel` is `int(max_pulse * 0.8)` (`0.8` taken exact).
Returns the capture and the trace of issued commands. -/
def _temp_set_velocity (tr : Transport) (proc : ProcState) (cfg : DeviceConfig)
    (ax vel_no : Int) (velocity : Rat) : Except Err Captured × List Cmd :=
  match get_axis_conf cfg ax with
  | .error e => (.error e, [])
  | .ok axis_cfg =>
  match velocity_unit_to_pulse velocity axis_cfg with
  | .error e => (.error e, [])
  | .ok max_pulse =>
  let start_pulse := pyTrunc ((max_pulse : Rat) * (8 / 10))
  match _exec_int tr proc "read_vel_tbl" [("ax_num", ax), ("vel_no", vel_no)] with
  | (.error e, t) => (.error e, t)
  | (.ok origf, t) =>
  let captured : Captured := ⟨origf, some proc.variant⟩
  match _get_vel_table_scaling origf max_pulse with
  | .error e => (.error e, t)
  | .ok scale =>
  match (match origf.lookup "acc_time" with
         | some s => pyFloatStr s
         | none => .ok (1 : Rat)) with
  | .error e => (.error e, t)
  | .ok origAcc =>
  let new_acc_time := max 1 (pyTrunc (origAcc * scale))
  match (match origf.lookup "acc_type" with
         | some s => pyIntStr s
         | none => .ok (1 : Int)) with
  | .error e => (.error e, t)
  | .ok acc_type_val =>
  let base_args := [("ax_num", ax), ("vel_no", vel_no), ("start_vel", start_pulse),
                    ("max_vel", max_pulse), ("acc_time", new_acc_time),
                    ("acc_type", acc_type_val)]
  match origf.lookup "dec_time" with
  | some ds =>
      match origf.lookup "acc_time" with
      | none => (.error (.keyError "acc_time"), t)
      | some _ =>
      match pyFloatStr ds with
      | .error e => (.error e, t)
      | .ok origDec =>
      match _exec_int tr proc "write_vel_tbl"
          (base_args ++ [("dec_time", max 1 (pyTrunc (origDec * scale)))]) with
      | (.error e, t2) => (.error e, t ++ t2)
      | (.ok _, t2) => (.ok captured, t ++ t2)
  | none =>
      match _exec_int tr proc "write_vel_tbl" base_args with
      | (.error e, t2) => (.error e, t ++ t2)
      | (.ok _, t2) => (.ok captured, t ++ t2)

/-- `proc.cmd_map['write_vel_tbl']['args']` (the map fixed at construction). -/
def write_args_of (mapVariant : String) : List String :=
  match cmd_map mapVariant "write_vel_tbl" with
  | some info => info.args
  | none => []

/-- The dict comprehension in `_restore_vel_tbl`:
`{arg: int(orig[arg]) for arg in args_list if arg in orig}`. -/
def restoreArgs : List String → Fields → Except Err (List (String × Int))
  | [], _ => .ok []
  | a :: rest, m =>
      match m.lookup a with
      | none => restoreArgs rest m
      | some s =>
          match pyIntStr s with
          | .error e => .error e
          | .ok n =>
              match restoreArgs rest m with
              | .error e => .error e
              | .ok tl => .ok ((a, n) :: tl)

/-- `MotionController._restore_vel_tbl`: reassign `proc.variant` from the
captured `_variant` (when not `None`), build the write arguments from the
captured entry filtered by the construction-time `write_vel_tbl` argument
list, and issue the write.  Returns the trace and the updated processor. -/
def _restore_vel_tbl (tr : Transport) (proc : ProcState) (orig : Captured) :
    Except Err Unit × List Cmd × ProcState :=
  let proc' := match orig.variantAtCapture with
               | some v => { proc with variant := v }
               | none => proc
  match restoreArgs (write_args_of proc'.mapVariant) orig.fields with
  | .error e => (.error e, [], proc')
  | .ok ras =>
      match _exec_int tr proc' "write_vel_tbl" ras with
      | (.error e, t) => (.error e, t, proc')
      | (.ok _, t) => (.ok (), t, proc')

/-- `vel_no or self._dev.target_vel_no` (Python falsiness: `None` and `0`
both select the session's target slot). -/
def pyOrInt (vel_no : Option Int) (target : Int) : Int :=
  match vel_no with
  | some v => if v = 0 then target else v
  | none => target

/-- `orig = self._temp_set_velocity(axis, table_no, velocity) if table_no
else None`.  (A returned capture is always dict-truthy: it carries at least
the `_variant` key.) -/
def tempStep (tr : Transport) (proc : ProcState) (cfg : DeviceConfig)
    (axis table_no : Int) (velocity : Rat) : Except Err (Option Captured) × List Cmd :=
  if table_no = 0 then (.ok none, [])
  else
    match _temp_set_velocity tr proc cfg axis table_no velocity with
    | (.error e, t) => (.error e, t)
    | (.ok c, t) => (.ok (some c), t)

/-- `if orig and self._dev.restore_vel_table: self._restore_vel_tbl(orig)`. -/
def restoreStep (tr : Transport) (proc : ProcState) (dev : DeviceState)
    (orig : Option Captured) : Except Err Unit × List Cmd × ProcState :=
  match orig with
  | some c =>
      if dev.restore_vel_table then _restore_vel_tbl tr proc c
      else (.ok (), [], proc)
  | none => (.ok (), [], proc)

/-- The dict `move_relative_sync` returns (steps 2-7 merged with the reply). -/
structure MoveResult where
  length_pulse : Int
  velocity : Rat
  velocity_pulse : Int
  resp : Fields
  deriving Repr, DecidableEq

/-- `MotionController.move_relative_sync` (`motion.py` lines 129-164):
idle wait, unit conversion, optional temporary velocity override, the
`move_relative` command, the post-move sleep (`length / velocity + buffer`,
whose division raises on `velocity == 0`), idle wait, optional restore,
result assembly. -/
def move_relative_sync (tr : Transport) (proc : ProcState) (dev : DeviceState)
    (fuel : Nat) (axis : Int) (length velocity : Rat) (vel_no : Option Int) :
    Except Err MoveResult × List Cmd × ProcState :=
  match ensure_idle tr proc axis fuel with
  | (.error e, t1) => (.error e, t1, proc)
  | (.ok _, t1) =>
  match get_axis_conf dev.config axis with
  | .error e => (.error e, t1, proc)
  | .ok ax_conf =>
  match length_unit_to_pulse length ax_conf with
  | .error e => (.error e, t1, proc)
  | .ok pulse_len =>
  let table_no := pyOrInt vel_no dev.target_vel_no
  match tempStep tr proc dev.config axis table_no velocity with
  | (.error e, t2) => (.error e, t1 ++ t2, proc)
  | (.ok orig, t2) =>
  match _exec_int tr proc "move_relative"
      [("ax_num", axis), ("vel_no", table_no), ("length", pulse_len), ("pat", 1)] with
  | (.error e, t3) => (.error e, t1 ++ t2 ++ t3, proc)
  | (.ok resp, t3) =>
  if velocity = 0 then (.error .zeroDivision, t1 ++ t2 ++ t3, proc)
  else
  match ensure_idle tr proc axis fuel with
  | (.error e, t4) => (.error e, t1 ++ t2 ++ t3 ++ t4, proc)
  | (.ok _, t4) =>
  match restoreStep tr proc dev orig with
  | (.error e, t5, proc') => (.error e, t1 ++ t2 ++ t3 ++ t4 ++ t5, proc')
  | (.ok _, t5, proc') =>
  match velocity_unit_to_pulse velocity ax_conf with
  | .error e => (.error e, t1 ++ t2 ++ t3 ++ t4 ++ t5, proc')
  | .ok vp =>
      (.ok ⟨pulse_len, velocity, vp, resp⟩, t1 ++ t2 ++ t3 ++ t4 ++ t5, proc')

/-- The dict `move_absolute_sync` returns; `position` is `resp.get('length')`. -/
structure AbsResult where
  position : Option String
  position_pulse : Int
  velocity : Rat
  velocity_pulse : Int
  resp : Fields
  deriving Repr, DecidableEq

/-- `MotionController.move_absolute_sync` (`motion.py` lines 171-194): same
protocol as `move_relative_sync` on the target position. -/
def move_absolute_sync (tr : Transport) (proc : ProcState) (dev : DeviceState)
    (fuel : Nat) (axis : Int) (position velocity : Rat) (vel_no : Option Int) :
    Except Err AbsResult × List Cmd × ProcState :=
  match ensure_idle tr proc axis fuel with
  | (.error e, t1) => (.error e, t1, proc)
  | (.ok _, t1) =>
  match get_axis_conf dev.config axis with
  | .error e => (.error e, t1, proc)
  | .ok ax_conf =>
  match length_unit_to_pulse position ax_conf with
  | .error e => (.error e, t1, proc)
  | .ok pulse_pos =>
  let table_no := pyOrInt vel_no dev.target_vel_no
  match tempStep tr proc dev.config axis table_no velocity with
  | (.error e, t2) => (.error e, t1 ++ t2, proc)
  | (.ok orig, t2) =>
  match _exec_int tr proc "move_absolute"
      [("ax_num", axis), ("vel_no", table_no), ("length", pulse_pos), ("pat", 1)] with
  | (.error e, t3) => (.error e, t1 ++ t2 ++ t3, proc)
  | (.ok resp, t3) =>
  if velocity = 0 then (.error .zeroDivision, t1 ++ t2 ++ t3, proc)
  else
  match ensure_idle tr proc axis fuel with
  | (.error e, t4) => (.error e, t1 ++ t2 ++ t3 ++ t4, proc)
  | (.ok _, t4) =>
  match restoreStep tr proc dev orig with
  | (.error e, t5, proc') => (.error e, t1 ++ t2 ++ t3 ++ t4 ++ t5, proc')
  | (.ok _, t5, proc') =>
  match velocity_unit_to_pulse velocity ax_conf with
  | .error e => (.error e, t1 ++ t2 ++ t3 ++ t4 ++ t5, proc')
  | .ok vp =>
      (.ok ⟨resp.lookup "length", pulse_pos, velocity, vp, resp⟩,
       t1 ++ t2 ++ t3 ++ t4 ++ t5, proc')

/-- The dict `home_sync` returns. -/
structure HomeResult where
  velocity : Rat
  velocity_pulse : Int
  resp : Fields
  deriving Repr, DecidableEq

/-- `MotionController.home_sync` (`motion.py` lines 201-220): like the moves
but with no distance (fixed empirical wait, so no division) and the velocity
conversion done up front. -/
def home_sync (tr : Transport) (proc : ProcState) (dev : DeviceState)
    (fuel : Nat) (axis : Int) (velocity : Rat) (vel_no : Option Int) :
    Except Err HomeResult × List Cmd × ProcState :=
  match ensure_idle tr proc axis fuel with
  | (.error e, t1) => (.error e, t1, proc)
  | (.ok _, t1) =>
  match get_axis_conf dev.config axis with
  | .error e => (.error e, t1, proc)
  | .ok ax_conf =>
  match velocity_unit_to_pulse velocity ax_conf with
  | .error e => (.error e, t1, proc)
  | .ok pulse_vel =>
  let table_no := pyOrInt vel_no dev.target_vel_no
  match tempStep tr proc dev.config axis table_no velocity with
  | (.error e, t2) => (.error e, t1 ++ t2, proc)
  | (.ok orig, t2) =>
  match _exec_int tr proc "home"
      [("ax_num", axis), ("vel_no", table_no), ("pat", 1)] with
  | (.error e, t3) => (.error e, t1 ++ t2 ++ t3, proc)
  | (.ok resp, t3) =>
  match ensure_idle tr proc axis fuel with
  | (.error e, t4) => (.error e, t1 ++ t2 ++ t3 ++ t4, proc)
  | (.ok _, t4) =>
  match restoreStep tr proc dev orig with
  | (.error e, t5, proc') => (.error e, t1 ++ t2 ++ t3 ++ t4 ++ t5, proc')
  | (.ok _, t5, proc') =>
      (.ok ⟨velocity, pulse_vel, resp⟩, t1 ++ t2 ++ t3 ++ t4 ++ t5, proc')

/-- The dict `MotionController.write_vel_tbl` returns. -/
structure WvtResult where
  start_velocity : Rat
  max_velocity : Rat
  start_pulse : Int
  max_pulse : Int
  acc_time : Int
  dec_time : Option Int
  acc_type : Option Int
  resp : Fields
  deriving Repr, DecidableEq

/-- Python `x or fallback` on an optional int argument, with the fallback
expression evaluated lazily (as `or` short-circuits). -/
def pyOrElse (v : Option Int) (fb : Unit → Except Err Int) : Except Err Int :=
  match v with
  | some a => if a = 0 then fb () else .ok a
  | none => fb ()

/-- `MotionController.write_vel_tbl` (`motion.py` lines 256-320): the direct
(non-temporary) table write.  Reads the current entry first (for the
time-scaling ratio), then validates `acc_time` / `dec_time` / `acc_type`,
then writes.  Returns the result record and the trace of issued commands. -/
def mc_write_vel_tbl (tr : Transport) (proc : ProcState) (dev : DeviceState)
    (axis vel_no : Int) (max_velocity : Rat)
    (acc_time dec_time acc_type : Option Int) :
    Except Err WvtResult × List Cmd :=
  match get_axis_conf dev.config axis with
  | .error e => (.error e, [])
  | .ok ax_conf =>
  let variant := proc.variant
  match velocity_unit_to_pulse max_velocity ax_conf with
  | .error e => (.error e, [])
  | .ok max_p =>
  let start_p := pyTrunc ((max_p : Rat) * (8 / 10))
  match _exec_int tr proc "read_vel_tbl" [("ax_num", axis), ("vel_no", vel_no)] with
  | (.error e, t) => (.error e, t)
  | (.ok orig, t) =>
  match _get_vel_table_scaling orig max_p with
  | .error e => (.error e, t)
  | .ok scale =>
  match pyOrElse acc_time (fun _ =>
      match (match orig.lookup "acc_time" with
             | some s => pyFloatStr s
             | none => .ok (1 : Rat)) with
      | .error e => .error e
      | .ok q => .ok (pyTrunc (q * scale))) with
  | .error e => (.error e, t)
  | .ok acc_cand =>
  match validate_acc_time acc_cand with
  | .error e => (.error e, t)
  | .ok acc_time_val =>
  match (if "dec_time" ∈ write_args_of proc.mapVariant then
           match pyOrElse dec_time (fun _ =>
               match (match orig.lookup "dec_time" with
                      | some s => pyFloatStr s
                      | none => .ok ((acc_time_val : Int) : Rat)) with
               | .error e => .error e
               | .ok q => .ok (pyTrunc (q * scale))) with
           | .error e => .error e
           | .ok dc =>
               match validate_dec_time dc with
               | .error e => .error e
               | .ok v => .ok (some v)
         else .ok none : Except Err (Option Int)) with
  | .error e => (.error e, t)
  | .ok dec_time_val =>
  match (if "acc_type" ∈ write_args_of proc.mapVariant then
           match validate_acc_type (acc_type.getD 1) variant with
           | .error e => .error e
           | .ok v => .ok (some v)
         else .ok none : Except Err (Option Int)) with
  | .error e => (.error e, t)
  | .ok acc_type_val =>
  let write_args :=
    [("ax_num", axis), ("vel_no", vel_no), ("start_vel", start_p),
     ("max_vel", max_p), ("acc_time", acc_time_val)]
    ++ (match dec_time_val with | some d => [("dec_time", d)] | none => [])
    ++ (match acc_type_val with | some a => [("acc_type", a)] | none => [])
  match _exec_int tr proc "write_vel_tbl" write_args with
  | (.error e, t2) => (.error e, t ++ t2)
  | (.ok resp, t2) =>
  match pulse_to_velocity_unit start_p ax_conf with
  | .error e => (.error e, t ++ t2)
  | .ok sv =>
      (.ok ⟨sv, max_velocity, start_p, max_p, acc_time_val, dec_time_val,
            acc_type_val, resp⟩, t ++ t2)

/-- `"/" ++ value` for every value after the first in a request body. -/
def slashTail : List String → String
  | [] => ""
  | e :: es => "/" ++ e ++ slashTail es

/-- The spec's §6 argument rendering, stated independently of the code's
accumulator loop: the first value stands alone, each further value is
preceded by `"/"`. -/
def slashJoin : List String → String
  | [] => ""
  | v :: rest => v ++ slashTail rest

/-- A transport oracle used by the concrete witnesses: the device is idle,
and every table/move command succeeds with the canonical default-variant
replies. -/
def trTest : Transport :=
  { raw := fun name _args =>
      if name = "read_status" then .ok "C STR 1 0 0 0 0 0"
      else if name = "read_vel_tbl" then .ok "C RTB 1 1 5 5 3 2"
      else if name = "write_vel_tbl" then .ok "C WTB1"
      else if name = "move_relative" then .ok "C RPS1"
      else if name = "move_absolute" then .ok "C APS1"
      else if name = "home" then .ok "C ORG1"
      else .error .transportFailure }

/-- A one-axis device configuration built on `axExample`. -/
def cfgTest : DeviceConfig :=
  { device := "TestDevice", axes_sum := 1, axes := [axExample],
    serial := { baudrate := 9600, parity := "N" } }

/-- Session configured to restore, with target slot 1. -/
def devTest : DeviceState :=
  { config := cfgTest, target_vel_no := 1, restore_vel_table := true }

/-- Session whose target slot is 0 (the falsy slot id). -/
def devTest0 : DeviceState :=
  { config := cfgTest, target_vel_no := 0, restore_vel_table := true }

/-- A default-variant processor as `CommandProcessor('default')` builds it. -/
def procTest : ProcState := { variant := "default", mapVariant := "default" }

/-- An aries-variant processor as `CommandProcessor('aries')` builds it. -/
def procAries : ProcState := { variant := "aries", mapVariant := "aries" }

/-! ### Helper lemmas -/

theorem pyTrunc_intCast (n : Int) : pyTrunc ((n : Rat)) = n := by
  unfold pyTrunc
  split <;> simp

theorem validate_position_pulse_ok (p : Int) (axis : AxisConfig)
    (h1 : axis.min_pulse ≤ p) (h2 : p ≤ axis.max_pulse) :
    validate_position_pulse p axis = .ok p := by
  unfold validate_position_pulse
  rw [if_neg (by omega)]

theorem validate_velocity_pulse_ok (p : Int) (axis : AxisConfig)
    (h1 : 0 ≤ p) (h2 : p ≤ axis.max_speed_pulse) :
    validate_velocity_pulse p axis = .ok p := by
  unfold validate_velocity_pulse
  rw [if_neg (by omega)]

/-! ### Claim theorems -/

/-- C1: the claim says `length_to_pulse` computes
`round_toward_zero(value * axis.pulse_per_unit)` and `pulse_to_length`
returns `pulse / axis.pulse_per_unit`, with `pulse_per_unit=10`,
`min_pulse=0`, `max_pulse=1000` sending length `2.0` to pulse `20` and pulse
`20` back to `2.0`.  The code divides on the forward conversion and
multiplies on the backward one, so on that calibration it sends length `2.0`
to pulse `0` and pulse `20` to `200.0`; `spec_length_to_pulse` (the claimed
multiplication, which is also what the repository's own tests assert) gives
`20`. -/
theorem C1_conversion_diverges_from_claim :
    length_unit_to_pulse 2 axExample = .ok 0 ∧
    pulse_to_length_unit 20 axExample = .ok 200 ∧
    spec_length_to_pulse 2 axExample = .ok 20 := by
  refine ⟨by decide, by decide, by decide⟩

/-- C5: on every axis calibration (with its pydantic invariant
`pulse_per_unit > 0`), the length and velocity conversions are mutually
inverse on values that convert without truncation loss and lie in the
validated range: a length `p * pulse_per_unit` (the exact image of a valid
pulse count `p`) converts forward to exactly `p`, and a valid pulse count
converts back to `p * pulse_per_unit`, which the forward conversion returns
to `p`. -/
theorem C5_conversions_inverse (axis : AxisConfig) (hppu : 0 < axis.pulse_per_unit) :
    (∀ p : Int, axis.min_pulse ≤ p → p ≤ axis.max_pulse →
       length_unit_to_pulse ((p : Rat) * axis.pulse_per_unit) axis = .ok p ∧
       pulse_to_length_unit p axis = .ok ((p : Rat) * axis.pulse_per_unit)) ∧
    (∀ p : Int, 0 ≤ p → p ≤ axis.max_speed_pulse →
       velocity_unit_to_pulse ((p : Rat) * axis.pulse_per_unit) axis = .ok p ∧
       pulse_to_velocity_unit p axis = .ok ((p : Rat) * axis.pulse_per_unit)) := by
  have hne : axis.pulse_per_unit ≠ 0 := ne_of_gt hppu
  constructor
  · intro p h1 h2
    constructor
    · unfold length_unit_to_pulse
      rw [mul_div_cancel_right₀ _ hne, pyTrunc_intCast,
        validate_position_pulse_ok p axis h1 h2]
    · unfold pulse_to_length_unit
      rw [validate_position_pulse_ok p axis h1 h2]
  · intro p h1 h2
    constructor
    · unfold velocity_unit_to_pulse
      rw [mul_div_cancel_right₀ _ hne, pyTrunc_intCast,
        validate_velocity_pulse_ok p axis h1 h2]
    · unfold pulse_to_velocity_unit
      rw [validate_velocity_pulse_ok p axis h1 h2]

/-- C5 witness: the inverse laws evaluated on the example calibration
(`pulse_per_unit = 10`) at pulse counts 4 and 7. -/
theorem C5_roundtrip_witness :
    length_unit_to_pulse (((4 : Int) : Rat) * axExample.pulse_per_unit) axExample = .ok 4 ∧
    pulse_to_length_unit 4 axExample = .ok (((4 : Int) : Rat) * axExample.pulse_per_unit) ∧
    velocity_unit_to_pulse (((7 : Int) : Rat) * axExample.pulse_per_unit) axExample = .ok 7 ∧
    pulse_to_velocity_unit 7 axExample = .ok (((7 : Int) : Rat) * axExample.pulse_per_unit) := by
  refine ⟨((C5_conversions_inverse axExample (by decide)).1 4 (by decide) (by decide)).1,
    ((C5_conversions_inverse axExample (by decide)).1 4 (by decide) (by decide)).2,
    ((C5_conversions_inverse axExample (by decide)).2 7 (by decide) (by decide)).1,
    ((C5_conversions_inverse axExample (by decide)).2 7 (by decide) (by decide)).2⟩

/-- C3 counterexample: the claim says decoding the literal reply text
`"C ax_num 1"` for `move_free` succeeds with `{ax_num: "1"}`; on the code the
two tokens after the prefix (`ax_num` is not an `FRP` echo) do not match the
one-field success layout, so the decode fails with a length mismatch. -/
theorem C3_counterexample :
    parse_response "default" "C ax_num 1" "move_free" = .error (.lengthMismatch 1 2) := by
  decide

/-- C3 (amended): decoding the reply `"C FRP1"` for `move_free` (default
variant) — the device echo with the first argument folded into the code
token, as the repository's tests use — succeeds and returns
`{ax_num: "1"}`. -/
theorem C3_echo_decode :
    parse_response "default" "C FRP1" "move_free" = .ok [("ax_num", "1")] := by
  decide

theorem foldl_slash_append (rest : List String) (x : String) :
    rest.foldl (fun b e => b ++ "/" ++ e) x = x ++ slashTail rest := by
  induction rest generalizing x with
  | nil => simp [slashTail]
  | cons e es ih =>
      simp only [List.foldl_cons, slashTail]
      rw [ih]
      simp [String.append_assoc]

theorem buildBody_eq_slashJoin (code : String) (vals : List String) :
    buildBody code vals = code ++ slashJoin vals := by
  cases vals with
  | nil => simp [buildBody, slashJoin]
  | cons v rest =>
      simp only [buildBody, slashJoin]
      rw [foldl_slash_append]
      simp [String.append_assoc]

/-- C7: encoding `move_free` with `ax_num=1, vel_no=2, dir=1` yields exactly
`0x02`, the ASCII text `"FRP1/2/1"`, then CR LF; in general every encodable
command frames as the `0x02` marker, the code, the first rendered argument
value directly after the code with the remaining values each preceded by
`"/"`, and CR LF; a command whose rendered argument list is empty frames as
the code alone between the markers. -/
theorem C7_frame_shape :
    generate_command "default" "move_free" [("ax_num", 1), ("vel_no", 2), ("dir", 1)]
      = .ok (0x02 :: strBytes "FRP1/2/1" ++ [0x0D, 0x0A]) ∧
    (∀ variant name kwargs info, cmd_map variant name = some info →
       generate_command variant name kwargs
         = .ok (0x02 :: strBytes (info.code ++ slashJoin (renderArgs info kwargs))
                ++ [0x0D, 0x0A])) ∧
    (∀ variant name kwargs info, cmd_map variant name = some info →
       renderArgs info kwargs = [] →
       generate_command variant name kwargs
         = .ok (0x02 :: strBytes info.code ++ [0x0D, 0x0A])) := by
  refine ⟨by decide, ?_, ?_⟩
  · intro variant name kwargs info hinfo
    simp only [generate_command, hinfo, buildBody_eq_slashJoin]
  · intro variant name kwargs info hinfo hargs
    simp only [generate_command, hinfo, buildBody_eq_slashJoin, hargs]
    simp [slashJoin]

/-- C7 witness: the general frame shape applied to the argument-less
`identify` command of the default table. -/
theorem C7_frame_witness :
    generate_command "default" "identify" []
      = .ok (0x02 :: strBytes "IDN" ++ [0x0D, 0x0A]) := by
  have h := C7_frame_shape.2.2 "default" "identify" []
    { code := "IDN", args := [], res_c := ["dev_name", "dev_var", "minor_ver", "release_ver"],
      res_e := [] } (by decide) (by decide)
  exact h

/-- C2 counterexample: the claim says a reply whose first token is neither
`C` nor `E` always fails with `MalformedResponse` and never yields a success
field mapping.  The code never checks the prefix: `"X 1 2"` decoded for
`move_free` is matched against the error-field list and *returned* as a
success mapping. -/
theorem C2_counterexample :
    parse_response "default" "X 1 2" "move_free"
      = .ok [("ax_num", "1"), ("error_num", "2")] := by
  decide

/-- C2 (amended): for every command of the active table and every reply
whose first token is neither `C` nor `E`, the decode matches the remaining
tokens (after echo consumption) against the command's *error*-field list: it
returns that field mapping as an ordinary success result when the token
count matches, and otherwise fails with `ResponseLengthMismatch` — never
with a `MalformedResponse` error.  (Stated here for the commands without the
`read_vel_tbl` fallback; the fallback case is C8's subject.) -/
theorem C2_non_CE_decode (variant command : String) (info : CommandInfo)
    (pfx : String) (rest : List String)
    (hinfo : cmd_map variant command = some info)
    (hrv : command ≠ "read_vel_tbl") (hC : pfx ≠ "C") (hE : pfx ≠ "E") :
    (if (consumeEcho info.code rest).length = info.res_e.length then
       parse_tokens variant (pfx :: rest) command
         = .ok (info.res_e.zip (consumeEcho info.code rest))
     else
       parse_tokens variant (pfx :: rest) command
         = .error (.lengthMismatch info.res_e.length (consumeEcho info.code rest).length)) := by
  split_ifs with hlen
  · simp only [parse_tokens, hinfo, selectFields, if_neg hC, if_neg hE, hrv, and_false,
      if_false, hlen, ne_eq, not_true_eq_false]
  · simp only [parse_tokens, hinfo, selectFields, if_neg hC, if_neg hE, hrv, and_false,
      if_false, ne_eq, hlen, not_false_eq_true, if_true]

/-- C2 witness: the amended rule evaluated on the `"X 1 2"` reply for
`move_free`. -/
theorem C2_non_CE_witness :
    parse_tokens "default" ["X", "1", "2"] "move_free"
      = .ok [("ax_num", "1"), ("error_num", "2")] := by
  have h := C2_non_CE_decode "default" "move_free"
    ⟨"FRP", ["ax_num", "vel_no", "dir"], ["ax_num"], ["ax_num", "error_num"]⟩
    "X" ["1", "2"] (by decide) (by decide) (by decide) (by decide)
  rw [if_pos (by decide)] at h
  exact h.trans (by decide)

/-- C8: when the token count after prefix/echo consumption differs from the
expected field count, the base (default-variant) layout is tried as a
fallback if and only if the command is `read_vel_tbl`: any other command
fails immediately with `ResponseLengthMismatch` carrying the active layout's
expected count; for `read_vel_tbl`, the decode proceeds with the base layout
exactly when the token count matches it (succeeding, or raising the device
error for an `E` prefix), and fails with `ResponseLengthMismatch` exactly
when no applicable layout matches the token count. -/
theorem C8_read_vel_tbl_fallback (variant command : String) (info : CommandInfo)
    (pfx : String) (rest : List String) (hinfo : cmd_map variant command = some info)
    (hmm : (consumeEcho info.code rest).length ≠ (selectFields info pfx).length) :
    (command ≠ "read_vel_tbl" →
       parse_tokens variant (pfx :: rest) command
         = .error (.lengthMismatch (selectFields info pfx).length
             (consumeEcho info.code rest).length)) ∧
    (command = "read_vel_tbl" →
       ∀ fb, default_map command = some fb →
         (if (consumeEcho info.code rest).length = (selectFields fb pfx).length then
            parse_tokens variant (pfx :: rest) command
              = (if pfx = "E" then
                   .error (.deviceCommandError command
                     (((selectFields fb pfx).zip (consumeEcho info.code rest)).lookup "ax_num")
                     (((selectFields fb pfx).zip (consumeEcho info.code rest)).lookup "error_num"))
                 else .ok ((selectFields fb pfx).zip (consumeEcho info.code rest)))
          else
            parse_tokens variant (pfx :: rest) command
              = .error (.lengthMismatch (selectFields info pfx).length
                  (consumeEcho info.code rest).length))) := by
  constructor
  · intro hrv
    simp only [parse_tokens, hinfo, selectFields] at hmm ⊢
    simp only [hrv, and_false, if_false, ne_eq, hmm, not_false_eq_true, if_true]
  · intro hrv fb hfb
    subst hrv
    simp only [parse_tokens, hinfo, hfb, selectFields, and_true, ne_eq] at hmm ⊢
    split_ifs <;> simp_all

/-- C8 witness: an aries-variant `read_vel_tbl` reply with the six-field base
shape (token count 6 against the aries nine-field layout) decodes through
the fallback layout. -/
theorem C8_fallback_witness :
    parse_tokens "aries" ["C", "1", "1", "5", "5", "3", "2"] "read_vel_tbl"
      = .ok [("ax_num", "1"), ("vel_no", "1"), ("start_vel", "5"), ("max_vel", "5"),
             ("acc_time", "3"), ("acc_type", "2")] := by
  have h := (C8_read_vel_tbl_fallback "aries" "read_vel_tbl"
    ⟨"RTB", ["ax_num", "vel_no"],
     ["ax_num", "vel_no", "start_vel", "max_vel", "acc_time", "dec_time",
      "acc_type", "acc_pulse", "dec_pulse"],
     ["ax_num", "error_num"]⟩
    "C" ["1", "1", "5", "5", "3", "2"] (by decide) (by decide)).2 rfl
    ⟨"RTB", ["ax_num", "vel_no"],
     ["ax_num", "vel_no", "start_vel", "max_vel", "acc_time", "acc_type"],
     ["ax_num", "error_num"]⟩ (by decide)
  rw [if_pos (by decide), if_neg (by decide)] at h
  exact h.trans (by decide)

/-- C9: in a discovery run without a forced candidate, candidates are probed
in enumeration order and a binding is accepted only when the decoded
`dev_name` field equals the configured device name; a transport-level
failure on a single candidate is swallowed (the candidate is skipped, the
scan continues) and never propagated by itself; exhausting all candidates
fails with the device-not-found error naming the expected device.  Part 4
shows any accepted binding sits after a prefix of candidates that all
probed negative (enumeration order); part 5 characterizes acceptance. -/
theorem C9_discovery_scan (variant devName : String) :
    (∀ c rest, probe variant devName c = none →
       connect_scan variant devName (c :: rest) = connect_scan variant devName rest) ∧
    (∀ c rest e, c.ident_reply = .error e →
       connect_scan variant devName (c :: rest) = connect_scan variant devName rest) ∧
    (∀ cs, (∀ c ∈ cs, probe variant devName c = none) →
       connect_scan variant devName cs = .error (.deviceNotFound devName)) ∧
    (∀ cs p, connect_scan variant devName cs = .ok p →
       ∃ pre c rest, cs = pre ++ c :: rest ∧ (∀ c2 ∈ pre, probe variant devName c2 = none) ∧
         probe variant devName c = some p) ∧
    (∀ c p, probe variant devName c = some p →
       p = c.port ∧ ∃ raw m, c.ident_reply = .ok raw ∧
         parse_response variant raw "identify" = .ok m ∧
         m.lookup "dev_name" = some devName) := by
  have skip : ∀ c rest, probe variant devName c = none →
      connect_scan variant devName (c :: rest) = connect_scan variant devName rest := by
    intro c rest h
    simp only [connect_scan, h]
  refine ⟨skip, ?_, ?_, ?_, ?_⟩
  · intro c rest e h
    refine skip c rest ?_
    simp only [probe, h]
  · intro cs hall
    induction cs with
    | nil => simp [connect_scan]
    | cons c cs ih =>
        rw [skip c cs (hall c (List.mem_cons_self c cs))]
        exact ih (fun c2 h2 => hall c2 (List.mem_cons_of_mem c h2))
  · intro cs p hok
    induction cs with
    | nil => simp [connect_scan] at hok
    | cons c cs ih =>
        rcases hp : probe variant devName c with _ | q
        · rw [skip c cs hp] at hok
          obtain ⟨pre, c3, rest, hsplit, hpre, hc3⟩ := ih hok
          exact ⟨c :: pre, c3, rest, by rw [hsplit]; rfl,
            fun c2 h2 => by
              rcases List.mem_cons.mp h2 with h3 | h3
              · rwa [h3]
              · exact hpre c2 h3, hc3⟩
        · simp only [connect_scan, hp] at hok
          cases hok
          exact ⟨[], c, cs, rfl, by simp, hp⟩
  · intro c p h
    unfold probe at h
    rcases hr : c.ident_reply with e | raw
    · simp only [hr] at h
      cases h
    · simp only [hr] at h
      rcases hm : parse_response variant raw "identify" with e2 | m
      · simp only [hm] at h
        cases h
      · simp only [hm] at h
        by_cases hl : m.lookup "dev_name" = some devName
        · rw [if_pos hl] at h
          cases h
          exact ⟨rfl, raw, m, rfl, hm, hl⟩
        · rw [if_neg hl] at h
          cases h

/-- C9 witness: a scan over a transport-failing candidate and a
wrong-identity candidate exhausts with `DeviceNotFound`; a matching probe
reports the candidate's own port. -/
theorem C9_discovery_witness :
    connect_scan "default" "TestDevice"
      [⟨"/dev/ttyUSB0", .error .transportFailure⟩,
       ⟨"/dev/ttyUSB1", .ok "C IDN OtherDevice 1 0 0"⟩]
      = .error (.deviceNotFound "TestDevice") ∧
    "/dev/ttyUSB1" = Candidate.port ⟨"/dev/ttyUSB1", .ok "C IDN TestDevice 1 0 0"⟩ := by
  constructor
  · exact (C9_discovery_scan "default" "TestDevice").2.2.1 _ (by decide)
  · exact ((C9_discovery_scan "default" "TestDevice").2.2.2.2
      ⟨"/dev/ttyUSB1", .ok "C IDN TestDevice 1 0 0"⟩ "/dev/ttyUSB1" (by decide)).1

theorem _exec_int_names (tr : Transport) (proc : ProcState) (name : String)
    (args : List (String × Int)) :
    ∀ c ∈ (_exec_int tr proc name args).2, c.name = name := by
  intro c hc
  unfold _exec_int at hc
  rcases h : generate_command proc.mapVariant name args with e | b <;> simp only [h] at hc
  · simp at hc
  · simp only [List.mem_singleton] at hc
    rw [hc]

/-- C4 counterexample: the claim says a `write_vel_tbl` call with `acc_time`
outside `[1, 10000]` raises before any device write with *no command at all*
issued on the transport.  In the code (a) the initial `read_vel_tbl` read is
issued on the transport before `acc_time` is validated — the trace for
`acc_time = 10001` is `["read_vel_tbl"]`, not empty — and (b) `acc_time = 0`
(outside the range) does not raise at all: `acc_time or fallback` treats `0`
as unsupplied, the scaled original value is used, and the write is issued. -/
theorem C4_counterexample :
    ((mc_write_vel_tbl trTest procTest devTest 1 3 2 (some 10001) none (some 1)).2.map Cmd.name
        = ["read_vel_tbl"]) ∧
    ((mc_write_vel_tbl trTest procTest devTest 1 3 50 (some 0) none (some 1)).2.map Cmd.name
        = ["read_vel_tbl", "write_vel_tbl"]) ∧
    ((mc_write_vel_tbl trTest procTest devTest 1 3 50 (some 0) none (some 1)).1
        = .ok ⟨40, 50, 4, 5, 3, none, some 1, [("ax_num", "1")]⟩) := by
  refine ⟨by decide, by decide, by decide⟩

/-- C4 (amended): for every `write_vel_tbl` call whose `acc_time` argument is
nonzero and outside `[1, 10000]`, the call raises a validation error before
any device *write* — no `write_vel_tbl` command ever reaches the transport —
but the initial `read_vel_tbl` read is issued first; when the steps before
validation succeed, the error is exactly `AccTimeOutOfRange` and the trace is
exactly that one read.  (`acc_time = 0` is instead treated as unsupplied.) -/
theorem C4_acc_time_validation (tr : Transport) (proc : ProcState) (dev : DeviceState)
    (axis vel_no : Int) (maxv : Rat) (a : Int) (dec aty : Option Int)
    (ha0 : a ≠ 0) (hout : a < 1 ∨ 10000 < a) :
    (∀ c ∈ (mc_write_vel_tbl tr proc dev axis vel_no maxv (some a) dec aty).2,
        c.name ≠ "write_vel_tbl") ∧
    (∃ e, (mc_write_vel_tbl tr proc dev axis vel_no maxv (some a) dec aty).1 = .error e) ∧
    (∀ ax mp origf sc,
        get_axis_conf dev.config axis = .ok ax →
        velocity_unit_to_pulse maxv ax = .ok mp →
        (_exec_int tr proc "read_vel_tbl" [("ax_num", axis), ("vel_no", vel_no)]).1 = .ok origf →
        _get_vel_table_scaling origf mp = .ok sc →
        mc_write_vel_tbl tr proc dev axis vel_no maxv (some a) dec aty
          = (.error (.accTimeOutOfRange a),
             (_exec_int tr proc "read_vel_tbl" [("ax_num", axis), ("vel_no", vel_no)]).2)) := by
  have hpy : ∀ fb : Unit → Except Err Int, pyOrElse (some a) fb = .ok a := fun fb => by
    simp [pyOrElse, ha0]
  have hval : validate_acc_time a = .error (.accTimeOutOfRange a) := by
    simp only [validate_acc_time, ACC_TIME_RANGE]
    rw [if_pos (by omega)]
  refine ⟨?_, ?_, ?_⟩
  · intro c hc
    unfold mc_write_vel_tbl at hc
    rcases hax : get_axis_conf dev.config axis with e | ax <;> simp only [hax] at hc
    · simp at hc
    rcases hmp : velocity_unit_to_pulse maxv ax with e | mp <;> simp only [hmp] at hc
    · simp at hc
    rcases hread : _exec_int tr proc "read_vel_tbl" [("ax_num", axis), ("vel_no", vel_no)]
      with ⟨r, t⟩
    have hname : ∀ c2 ∈ t, Cmd.name c2 = "read_vel_tbl" := by
      intro c2 h2
      exact _exec_int_names tr proc "read_vel_tbl" _ c2 (by rw [hread]; exact h2)
    rcases r with e | origf <;> simp only [hread] at hc
    · rw [hname c hc]
      decide
    rcases hsc : _get_vel_table_scaling origf mp with e | sc <;> simp only [hsc] at hc
    · rw [hname c hc]
      decide
    simp only [hpy, hval] at hc
    rw [hname c hc]
    decide
  · unfold mc_write_vel_tbl
    rcases hax : get_axis_conf dev.config axis with e | ax <;> simp only [hax]
    · exact ⟨_, rfl⟩
    rcases hmp : velocity_unit_to_pulse maxv ax with e | mp <;> simp only [hmp]
    · exact ⟨_, rfl⟩
    rcases hread : _exec_int tr proc "read_vel_tbl" [("ax_num", axis), ("vel_no", vel_no)]
      with ⟨r, t⟩
    rcases r with e | origf <;> simp only [hread]
    · exact ⟨_, rfl⟩
    rcases hsc : _get_vel_table_scaling origf mp with e | sc <;> simp only [hsc]
    · exact ⟨_, rfl⟩
    simp only [hpy, hval]
    exact ⟨_, rfl⟩
  · intro ax mp origf sc hax hmp hread hsc
    unfold mc_write_vel_tbl
    rcases hr2 : _exec_int tr proc "read_vel_tbl" [("ax_num", axis), ("vel_no", vel_no)]
      with ⟨r, t⟩
    rw [hr2] at hread
    simp only at hread
    subst hread
    simp only [hax, hmp, hr2, hsc, hpy, hval]

/-- C4 witness: the amended rule applied to the concrete session — the call
with `acc_time = 10001` fails with `AccTimeOutOfRange` after issuing exactly
the one read. -/
theorem C4_validation_witness :
    mc_write_vel_tbl trTest procTest devTest 1 3 2 (some 10001) none (some 1)
      = (.error (.accTimeOutOfRange 10001),
         (_exec_int trTest procTest "read_vel_tbl" [("ax_num", 1), ("vel_no", 3)]).2) := by
  exact (C4_acc_time_validation trTest procTest devTest 1 3 2 10001 none (some 1)
      (by decide) (by omega)).2.2 axExample 0
    [("ax_num", "1"), ("vel_no", "1"), ("start_vel", "5"), ("max_vel", "5"),
     ("acc_time", "3"), ("acc_type", "2")] 0
    (by decide) (by decide) (by decide) (by decide)

theorem ensure_idle_names (tr : Transport) (proc : ProcState) (ax : Int) :
    ∀ fuel, ∀ c ∈ (ensure_idle tr proc ax fuel).2, c.name = "read_status" := by
  intro fuel
  induction fuel with
  | zero =>
      intro c hc
      simp [ensure_idle] at hc
  | succ n ih =>
      intro c hc
      unfold ensure_idle at hc
      rcases h : _exec_int tr proc "read_status" [("ax_num", ax)] with ⟨r, t⟩
      have hnm : ∀ c2 ∈ t, Cmd.name c2 = "read_status" := by
        intro c2 h2
        exact _exec_int_names tr proc "read_status" _ c2 (by rw [h]; exact h2)
      rcases r with e | sta <;> simp only [h] at hc
      · exact hnm c hc
      by_cases hs : sta.lookup "status" = some "0"
      · rw [if_pos hs] at hc
        exact hnm c hc
      · rw [if_neg hs] at hc
        rcases h2 : ensure_idle tr proc ax n with ⟨r2, t2⟩
        simp only [h2] at hc
        rcases List.mem_append.mp hc with h3 | h3
        · exact hnm c h3
        · exact ih c (by rw [h2]; exact h3)

theorem _exec_int_ok_trace (tr : Transport) (proc : ProcState) (name : String)
    (args : List (String × Int)) (f : Fields)
    (hok : (_exec_int tr proc name args).1 = .ok f) :
    (_exec_int tr proc name args).2 = [⟨name, args, proc.variant⟩] := by
  unfold _exec_int at hok ⊢
  rcases h : generate_command proc.mapVariant name args with e | b <;> simp only [h] at hok ⊢
  simp at hok

theorem move_relative_zero_slot (tr : Transport) (proc : ProcState) (dev : DeviceState)
    (fuel : Nat) (axis : Int) (len vel : Rat) (vn : Option Int)
    (htgt : dev.target_vel_no = 0) (hvn : vn = none ∨ vn = some 0)
    (r : MoveResult) (t : List Cmd) (proc2 : ProcState)
    (hrun : move_relative_sync tr proc dev fuel axis len vel vn = (.ok r, t, proc2)) :
    (∀ c ∈ t, c.name ≠ "read_vel_tbl" ∧ c.name ≠ "write_vel_tbl") ∧
    (∃ c ∈ t, c.name = "move_relative" ∧ ("vel_no", (0 : Int)) ∈ c.args) := by
  have htab : pyOrInt vn dev.target_vel_no = 0 := by
    rcases hvn with h | h <;> simp [pyOrInt, h, htgt]
  have htmp : tempStep tr proc dev.config axis 0 vel = (.ok none, []) := by
    simp [tempStep]
  have hrs : restoreStep tr proc dev none = (.ok (), [], proc) := rfl
  unfold move_relative_sync at hrun
  simp only [htab, htmp, hrs] at hrun
  rcases h1 : ensure_idle tr proc axis fuel with ⟨r1, t1⟩
  rcases r1 with e | u <;> simp only [h1] at hrun
  · simp at hrun
  rcases hax : get_axis_conf dev.config axis with e | ax <;> simp only [hax] at hrun
  · simp at hrun
  rcases hlp : length_unit_to_pulse len ax with e | pl <;> simp only [hlp] at hrun
  · simp at hrun
  rcases hmv : _exec_int tr proc "move_relative"
      [("ax_num", axis), ("vel_no", 0), ("length", pl), ("pat", 1)] with ⟨r3, t3⟩
  rcases r3 with e | resp <;> simp only [hmv] at hrun
  · simp at hrun
  by_cases hv : vel = 0
  · rw [if_pos hv] at hrun
    simp at hrun
  rw [if_neg hv] at hrun
  rcases hvp : velocity_unit_to_pulse vel ax with e | vp <;> simp only [hvp] at hrun
  · simp at hrun
  have ht3 : t3 = [⟨"move_relative", [("ax_num", axis), ("vel_no", 0), ("length", pl),
      ("pat", 1)], proc.variant⟩] := by
    have := _exec_int_ok_trace tr proc "move_relative"
      [("ax_num", axis), ("vel_no", 0), ("length", pl), ("pat", 1)] resp (by rw [hmv])
    rw [hmv] at this
    exact this
  simp only [Prod.mk.injEq] at hrun
  obtain ⟨h5, h6, h7⟩ := hrun
  subst h6
  have hn1 : ∀ c ∈ t1, Cmd.name c = "read_status" := by
    intro c hc
    exact ensure_idle_names tr proc axis fuel c (by rw [h1]; exact hc)
  constructor
  · intro c hc
    simp only [List.append_nil, List.nil_append, List.mem_append] at hc
    rcases hc with (hc | hc) | hc
    · rw [hn1 c hc]
      exact ⟨by simp, by simp⟩
    · rw [ht3] at hc
      simp only [List.mem_singleton] at hc
      rw [hc]
      exact ⟨by simp, by simp⟩
    · rw [hn1 c hc]
      exact ⟨by simp, by simp⟩
  · refine ⟨⟨"move_relative", [("ax_num", axis), ("vel_no", 0), ("length", pl),
      ("pat", 1)], proc.variant⟩, ?_, rfl, by simp⟩
    simp only [List.append_nil, List.nil_append, List.mem_append]
    left
    right
    rw [ht3]
    simp

theorem move_absolute_zero_slot (tr : Transport) (proc : ProcState) (dev : DeviceState)
    (fuel : Nat) (axis : Int) (pos vel : Rat) (vn : Option Int)
    (htgt : dev.target_vel_no = 0) (hvn : vn = none ∨ vn = some 0)
    (r : AbsResult) (t : List Cmd) (proc2 : ProcState)
    (hrun : move_absolute_sync tr proc dev fuel axis pos vel vn = (.ok r, t, proc2)) :
    (∀ c ∈ t, c.name ≠ "read_vel_tbl" ∧ c.name ≠ "write_vel_tbl") ∧
    (∃ c ∈ t, c.name = "move_absolute" ∧ ("vel_no", (0 : Int)) ∈ c.args) := by
  have htab : pyOrInt vn dev.target_vel_no = 0 := by
    rcases hvn with h | h <;> simp [pyOrInt, h, htgt]
  have htmp : tempStep tr proc dev.config axis 0 vel = (.ok none, []) := by
    simp [tempStep]
  have hrs : restoreStep tr proc dev none = (.ok (), [], proc) := rfl
  unfold move_absolute_sync at hrun
  simp only [htab, htmp, hrs] at hrun
  rcases h1 : ensure_idle tr proc axis fuel with ⟨r1, t1⟩
  rcases r1 with e | u <;> simp only [h1] at hrun
  · simp at hrun
  rcases hax : get_axis_conf dev.config axis with e | ax <;> simp only [hax] at hrun
  · simp at hrun
  rcases hlp : length_unit_to_pulse pos ax with e | pl <;> simp only [hlp] at hrun
  · simp at hrun
  rcases hmv : _exec_int tr proc "move_absolute"
      [("ax_num", axis), ("vel_no", 0), ("length", pl), ("pat", 1)] with ⟨r3, t3⟩
  rcases r3 with e | resp <;> simp only [hmv] at hrun
  · simp at hrun
  by_cases hv : vel = 0
  · rw [if_pos hv] at hrun
    simp at hrun
  rw [if_neg hv] at hrun
  rcases hvp : velocity_unit_to_pulse vel ax with e | vp <;> simp only [hvp] at hrun
  · simp at hrun
  have ht3 : t3 = [⟨"move_absolute", [("ax_num", axis), ("vel_no", 0), ("length", pl),
      ("pat", 1)], proc.variant⟩] := by
    have := _exec_int_ok_trace tr proc "move_absolute"
      [("ax_num", axis), ("vel_no", 0), ("length", pl), ("pat", 1)] resp (by rw [hmv])
    rw [hmv] at this
    exact this
  simp only [Prod.mk.injEq] at hrun
  obtain ⟨h5, h6, h7⟩ := hrun
  subst h6
  have hn1 : ∀ c ∈ t1, Cmd.name c = "read_status" := by
    intro c hc
    exact ensure_idle_names tr proc axis fuel c (by rw [h1]; exact hc)
  constructor
  · intro c hc
    simp only [List.append_nil, List.nil_append, List.mem_append] at hc
    rcases hc with (hc | hc) | hc
    · rw [hn1 c hc]
      exact ⟨by simp, by simp⟩
    · rw [ht3] at hc
      simp only [List.mem_singleton] at hc
      rw [hc]
      exact ⟨by simp, by simp⟩
    · rw [hn1 c hc]
      exact ⟨by simp, by simp⟩
  · refine ⟨⟨"move_absolute", [("ax_num", axis), ("vel_no", 0), ("length", pl),
      ("pat", 1)], proc.variant⟩, ?_, rfl, by simp⟩
    simp only [List.append_nil, List.nil_append, List.mem_append]
    left
    right
    rw [ht3]
    simp

theorem home_zero_slot (tr : Transport) (proc : ProcState) (dev : DeviceState)
    (fuel : Nat) (axis : Int) (vel : Rat) (vn : Option Int)
    (htgt : dev.target_vel_no = 0) (hvn : vn = none ∨ vn = some 0)
    (r : HomeResult) (t : List Cmd) (proc2 : ProcState)
    (hrun : home_sync tr proc dev fuel axis vel vn = (.ok r, t, proc2)) :
    (∀ c ∈ t, c.name ≠ "read_vel_tbl" ∧ c.name ≠ "write_vel_tbl") ∧
    (∃ c ∈ t, c.name = "home" ∧ ("vel_no", (0 : Int)) ∈ c.args) := by
  have htab : pyOrInt vn dev.target_vel_no = 0 := by
    rcases hvn with h | h <;> simp [pyOrInt, h, htgt]
  have htmp : tempStep tr proc dev.config axis 0 vel = (.ok none, []) := by
    simp [tempStep]
  have hrs : restoreStep tr proc dev none = (.ok (), [], proc) := rfl
  unfold home_sync at hrun
  simp only [htab, htmp, hrs] at hrun
  rcases h1 : ensure_idle tr proc axis fuel with ⟨r1, t1⟩
  rcases r1 with e | u <;> simp only [h1] at hrun
  · simp at hrun
  rcases hax : get_axis_conf dev.config axis with e | ax <;> simp only [hax] at hrun
  · simp at hrun
  rcases hvp : velocity_unit_to_pulse vel ax with e | pv <;> simp only [hvp] at hrun
  · simp at hrun
  rcases hmv : _exec_int tr proc "home"
      [("ax_num", axis), ("vel_no", 0), ("pat", 1)] with ⟨r3, t3⟩
  rcases r3 with e | resp <;> simp only [hmv] at hrun
  · simp at hrun
  have ht3 : t3 = [⟨"home", [("ax_num", axis), ("vel_no", 0), ("pat", 1)],
      proc.variant⟩] := by
    have := _exec_int_ok_trace tr proc "home"
      [("ax_num", axis), ("vel_no", 0), ("pat", 1)] resp (by rw [hmv])
    rw [hmv] at this
    exact this
  simp only [Prod.mk.injEq] at hrun
  obtain ⟨h5, h6, h7⟩ := hrun
  subst h6
  have hn1 : ∀ c ∈ t1, Cmd.name c = "read_status" := by
    intro c hc
    exact ensure_idle_names tr proc axis fuel c (by rw [h1]; exact hc)
  constructor
  · intro c hc
    simp only [List.append_nil, List.nil_append, List.mem_append] at hc
    rcases hc with (hc | hc) | hc
    · rw [hn1 c hc]
      exact ⟨by simp, by simp⟩
    · rw [ht3] at hc
      simp only [List.mem_singleton] at hc
      rw [hc]
      exact ⟨by simp, by simp⟩
    · rw [hn1 c hc]
      exact ⟨by simp, by simp⟩
  · refine ⟨⟨"home", [("ax_num", axis), ("vel_no", 0), ("pat", 1)],
      proc.variant⟩, ?_, rfl, by simp⟩
    simp only [List.append_nil, List.nil_append, List.mem_append]
    left
    right
    rw [ht3]
    simp

/-- C10: in `move_relative`, `move_absolute` and `home`, an explicitly
supplied `vel_no` of 0 behaves exactly like supplying no `vel_no` (the
session's configured target slot is used); and when the effective slot id is
0 (falsy), no temporary velocity-table override and no restore are performed
— the trace carries no `read_vel_tbl` or `write_vel_tbl` command — while the
motion command is still issued with `vel_no = 0`. -/
theorem C10_falsy_vel_no (tr : Transport) (proc : ProcState) (dev : DeviceState)
    (fuel : Nat) (axis : Int) (len vel : Rat) :
    (move_relative_sync tr proc dev fuel axis len vel (some 0)
       = move_relative_sync tr proc dev fuel axis len vel none) ∧
    (move_absolute_sync tr proc dev fuel axis len vel (some 0)
       = move_absolute_sync tr proc dev fuel axis len vel none) ∧
    (home_sync tr proc dev fuel axis vel (some 0)
       = home_sync tr proc dev fuel axis vel none) ∧
    (dev.target_vel_no = 0 → ∀ vn, (vn = none ∨ vn = some 0) →
      (∀ r t proc2, move_relative_sync tr proc dev fuel axis len vel vn = (.ok r, t, proc2) →
         (∀ c ∈ t, c.name ≠ "read_vel_tbl" ∧ c.name ≠ "write_vel_tbl") ∧
         (∃ c ∈ t, c.name = "move_relative" ∧ ("vel_no", (0 : Int)) ∈ c.args)) ∧
      (∀ r t proc2, move_absolute_sync tr proc dev fuel axis len vel vn = (.ok r, t, proc2) →
         (∀ c ∈ t, c.name ≠ "read_vel_tbl" ∧ c.name ≠ "write_vel_tbl") ∧
         (∃ c ∈ t, c.name = "move_absolute" ∧ ("vel_no", (0 : Int)) ∈ c.args)) ∧
      (∀ r t proc2, home_sync tr proc dev fuel axis vel vn = (.ok r, t, proc2) →
         (∀ c ∈ t, c.name ≠ "read_vel_tbl" ∧ c.name ≠ "write_vel_tbl") ∧
         (∃ c ∈ t, c.name = "home" ∧ ("vel_no", (0 : Int)) ∈ c.args))) := by
  have h : pyOrInt (some 0) dev.target_vel_no = pyOrInt none dev.target_vel_no := by
    simp [pyOrInt]
  refine ⟨?_, ?_, ?_, ?_⟩
  · simp only [move_relative_sync]
    rw [h]
  · simp only [move_absolute_sync]
    rw [h]
  · simp only [home_sync]
    rw [h]
  · intro htgt vn hvn
    exact ⟨fun r t proc2 hrun =>
        move_relative_zero_slot tr proc dev fuel axis len vel vn htgt hvn r t proc2 hrun,
      fun r t proc2 hrun =>
        move_absolute_zero_slot tr proc dev fuel axis len vel vn htgt hvn r t proc2 hrun,
      fun r t proc2 hrun =>
        home_zero_slot tr proc dev fuel axis vel vn htgt hvn r t proc2 hrun⟩

/-- C10 witness: the slot-0 rule applied to a concrete run against the idle
transport with target slot 0 — the trace is read-status, the move with
`vel_no = 0`, read-status, with no table read or write. -/
theorem C10_falsy_witness :
    (∀ c ∈ ([⟨"read_status", [("ax_num", 1)], "default"⟩,
             ⟨"move_relative", [("ax_num", 1), ("vel_no", 0), ("length", 0), ("pat", 1)],
              "default"⟩,
             ⟨"read_status", [("ax_num", 1)], "default"⟩] : List Cmd),
        c.name ≠ "read_vel_tbl" ∧ c.name ≠ "write_vel_tbl") ∧
    (∃ c ∈ ([⟨"read_status", [("ax_num", 1)], "default"⟩,
             ⟨"move_relative", [("ax_num", 1), ("vel_no", 0), ("length", 0), ("pat", 1)],
              "default"⟩,
             ⟨"read_status", [("ax_num", 1)], "default"⟩] : List Cmd),
        c.name = "move_relative" ∧ ("vel_no", (0 : Int)) ∈ c.args) := by
  exact ((C10_falsy_vel_no trTest procTest devTest0 1 1 2 2).2.2.2 (by decide)
    (some 0) (Or.inr rfl)).1
    ⟨0, 2, 0, [("ax_num", "1")]⟩ _ procTest (by decide)

theorem restoreArgs_mem (args : List String) (m : Fields) (ras : List (String × Int))
    (h : restoreArgs args m = .ok ras) :
    ∀ k s, k ∈ args → m.lookup k = some s → ∃ n, pyIntStr s = .ok n ∧ (k, n) ∈ ras := by
  induction args generalizing ras with
  | nil =>
      intro k s hk
      simp at hk
  | cons a rest ih =>
      intro k s hk hm
      unfold restoreArgs at h
      rcases hma : m.lookup a with _ | sa <;> simp only [hma] at h
      · rcases List.mem_cons.mp hk with h1 | h1
        · subst h1
          rw [hma] at hm
          cases hm
        · exact ih ras h k s h1 hm
      · rcases hpi : pyIntStr sa with e | n <;> simp only [hpi] at h
        · cases h
        rcases hrest : restoreArgs rest m with e | tl <;> simp only [hrest] at h
        · cases h
        simp only [Except.ok.injEq] at h
        subst h
        rcases List.mem_cons.mp hk with h1 | h1
        · subst h1
          rw [hma] at hm
          cases hm
          exact ⟨n, hpi, List.mem_cons_self _ _⟩
        · obtain ⟨n2, hn2, hmem⟩ := ih tl hrest k s h1 hm
          exact ⟨n2, hn2, List.mem_cons_of_mem _ hmem⟩

/-- C6: a temporary velocity-table override captures the slot verbatim, and
the matching restore writes the captured entry back verbatim.  Part one: a
successful `_temp_set_velocity` returns exactly the decoded fields of the
`read_vel_tbl` reply together with the processor variant active at capture
time.  Part two: `_restore_vel_tbl` (the final step of the unit-aware motion
operations when an override was applied and the session is configured to
restore) first restores the captured variant onto the processor, then issues
a single `write_vel_tbl` whose arguments are, for every declared write
argument present in the capture, exactly the integer value of the captured
field — the captured `start_vel`, `max_vel`, `acc_time`, `dec_time` (when
present) and `acc_type` unchanged — and the command is issued under the
restored variant. -/
theorem C6_restore_verbatim (tr : Transport) (proc : ProcState) (cfg : DeviceConfig)
    (ax vel_no : Int) (velocity : Rat) (cap : Captured) (t : List Cmd)
    (hcap : _temp_set_velocity tr proc cfg ax vel_no velocity = (.ok cap, t)) :
    (∃ raw m, tr.raw "read_vel_tbl" [("ax_num", ax), ("vel_no", vel_no)] = .ok raw ∧
       parse_response proc.mapVariant raw "read_vel_tbl" = .ok m ∧
       cap = ⟨m, some proc.variant⟩) ∧
    (∀ procR res t2 proc2, procR.mapVariant = proc.mapVariant →
       _restore_vel_tbl tr procR cap = (res, t2, proc2) →
       proc2.variant = proc.variant ∧
       (res = .ok () →
         ∃ ras, restoreArgs (write_args_of proc.mapVariant) cap.fields = .ok ras ∧
           t2 = [⟨"write_vel_tbl", ras, proc.variant⟩] ∧
           ∀ k s, k ∈ write_args_of proc.mapVariant → cap.fields.lookup k = some s →
             ∃ n, pyIntStr s = .ok n ∧ (k, n) ∈ ras)) := by
  unfold _temp_set_velocity at hcap
  rcases hax : get_axis_conf cfg ax with e | axc <;> simp only [hax] at hcap
  · simp at hcap
  rcases hmp : velocity_unit_to_pulse velocity axc with e | mp <;> simp only [hmp] at hcap
  · simp at hcap
  rcases hread : _exec_int tr proc "read_vel_tbl" [("ax_num", ax), ("vel_no", vel_no)]
    with ⟨r0, t0⟩
  rcases r0 with e | origf <;> simp only [hread] at hcap
  · simp at hcap
  have hcapv : cap = ⟨origf, some proc.variant⟩ := by
    repeat' split at hcap
    all_goals simp_all
  subst hcapv
  have hexec := hread
  unfold _exec_int at hexec
  rcases hgen : generate_command proc.mapVariant "read_vel_tbl"
      [("ax_num", ax), ("vel_no", vel_no)] with e | b <;> simp only [hgen] at hexec
  · simp at hexec
  rcases hraw : tr.raw "read_vel_tbl" [("ax_num", ax), ("vel_no", vel_no)]
      with e | raw <;> simp only [hraw] at hexec
  · simp at hexec
  simp only [Prod.mk.injEq] at hexec
  obtain ⟨hparse, ht0⟩ := hexec
  refine ⟨⟨raw, origf, rfl, hparse, rfl⟩, ?_⟩
  intro procR res t2 proc2 hmapR hres
  unfold _restore_vel_tbl at hres
  simp only at hres
  rw [hmapR] at hres
  split at hres
  · rename_i e heq
    simp only [Prod.mk.injEq] at hres
    obtain ⟨h1, h2, h3⟩ := hres
    refine ⟨by rw [← h3], ?_⟩
    intro hok
    rw [← h1] at hok
    cases hok
  · rename_i ras heq
    split at hres
    · rename_i e tw heq2
      simp only [Prod.mk.injEq] at hres
      obtain ⟨h1, h2, h3⟩ := hres
      refine ⟨by rw [← h3], ?_⟩
      intro hok
      rw [← h1] at hok
      cases hok
    · rename_i f tw heq2
      simp only [Prod.mk.injEq] at hres
      obtain ⟨h1, h2, h3⟩ := hres
      refine ⟨by rw [← h3], ?_⟩
      intro _
      have htw : tw = [⟨"write_vel_tbl", ras, proc.variant⟩] := by
        have h4 := _exec_int_ok_trace tr ⟨proc.variant, proc.mapVariant⟩
          "write_vel_tbl" ras f (by rw [heq2])
        rw [heq2] at h4
        exact h4
      exact ⟨ras, heq, by rw [← h2, htw],
        restoreArgs_mem (write_args_of proc.mapVariant) origf ras heq⟩

/-- C6 witness: the capture/restore law evaluated on the concrete session —
the temporary override writes (0, 0, 1, 2), yet the restore write carries
the captured (5, 5, 3, 2) verbatim, under the capture-time variant. -/
theorem C6_restore_witness :
    ∃ ras, restoreArgs (write_args_of "default")
        [("ax_num", "1"), ("vel_no", "1"), ("start_vel", "5"), ("max_vel", "5"),
         ("acc_time", "3"), ("acc_type", "2")] = .ok ras ∧
      [(⟨"write_vel_tbl", [("ax_num", 1), ("vel_no", 1), ("start_vel", 5), ("max_vel", 5),
         ("acc_time", 3), ("acc_type", 2)], "default"⟩ : Cmd)]
        = [(⟨"write_vel_tbl", ras, "default"⟩ : Cmd)] ∧
      ∀ k s, k ∈ write_args_of "default" →
        List.lookup k [("ax_num", "1"), ("vel_no", "1"), ("start_vel", "5"), ("max_vel", "5"),
          ("acc_time", "3"), ("acc_type", "2")] = some s →
        ∃ n, pyIntStr s = .ok n ∧ (k, n) ∈ ras := by
  have h := (C6_restore_verbatim trTest procTest cfgTest 1 1 2
    ⟨[("ax_num", "1"), ("vel_no", "1"), ("start_vel", "5"), ("max_vel", "5"),
      ("acc_time", "3"), ("acc_type", "2")], some "default"⟩
    [⟨"read_vel_tbl", [("ax_num", 1), ("vel_no", 1)], "default"⟩,
     ⟨"write_vel_tbl", [("ax_num", 1), ("vel_no", 1), ("start_vel", 0), ("max_vel", 0),
       ("acc_time", 1), ("acc_type", 2)], "default"⟩]
    (by decide)).2 procTest (.ok ())
    [⟨"write_vel_tbl", [("ax_num", 1), ("vel_no", 1), ("start_vel", 5), ("max_vel", 5),
       ("acc_time", 3), ("acc_type", 2)], "default"⟩] procTest rfl (by decide)
  exact h.2 rfl
